import Mathlib

/-!
Verification development for the order core of the IBKR-API-Rust repository
(`src/core/order.rs`): the Order entity with its sentinel-based optional
fields, the preset factory functions, the condition builders, the Display
rendering and the serde-derived structured decoding.

Rust `f64` is modelled by `ℚ`: every numeric literal appearing in the code
under scrutiny (0.0, 100.0, 50.5, 50.0, 1.5, -0.25, 3.0, f64::MAX) is exactly
representable, and the code performs no floating-point arithmetic on these
fields — it only stores, compares for equality and formats them.
Rust `i32` is modelled by `Int`; the only place `i32` arithmetic occurs
(`bracket_order` child ids) goes through `i32wrap`, the two's-complement
wrap of the release build (the debug build panics at the same inputs).
-/

set_option maxRecDepth 8192

namespace IBKR

/-- Model of Rust `f64` for this development (see the file header). -/
abbrev f64 := ℚ

/-- Modelled from the spec: sentinel constant `UNSET_DOUBLE` from
`core::common` (file not under `src/`); "a reserved constant never produced
by legitimate input", the crate uses `f64::MAX` = (2^53 - 1) * 2^971. -/
def UNSET_DOUBLE : f64 := (((2 ^ 53 - 1) * 2 ^ 971 : ℤ) : ℚ)

/-- Modelled from the spec: sentinel constant `UNSET_INTEGER` from
`core::common` (file not under `src/`); the crate uses `i32::MAX`. -/
def UNSET_INTEGER : Int := 2 ^ 31 - 1

/-- Two's-complement wrap-around of `i32` addition results (Rust release
build semantics; the debug build aborts where this wraps). -/
def i32wrap (x : Int) : Int := (x + 2 ^ 31) % 2 ^ 32 - 2 ^ 31

theorem i32wrap_eq_self (x : Int) (h1 : -(2 ^ 31) ≤ x) (h2 : x ≤ 2 ^ 31 - 1) :
    i32wrap x = x := by
  unfold i32wrap
  rw [Int.emod_eq_of_lt (by omega) (by omega)]
  omega

/-- Modelled from the spec: `TagValue` from `core::common` (not under
`src/`): an ordered tag/value string pair, as used by `algo_params`,
`smart_combo_routing_params` and `order_misc_options`. -/
structure TagValue where
  tag : String
  value : String
deriving DecidableEq

def TagValue.new (tag : String) (value : String) : TagValue := ⟨tag, value⟩

/-- `Origin` from `src/core/order.rs`. -/
inductive Origin where
  | Customer
  | Firm
  | Unknown
deriving DecidableEq

/-- `impl Default for Origin` from the source: `Origin::Unknown`. -/
def Origin.default : Origin := Origin.Unknown

/-- `AuctionStrategy` from `src/core/order.rs`. -/
inductive AuctionStrategy where
  | AuctionUnset
  | AuctionMatch
  | AuctionImprovement
  | AuctionTransparent
deriving DecidableEq

/-- `impl Default for AuctionStrategy` from the source: `AuctionUnset`. -/
def AuctionStrategy.default : AuctionStrategy := AuctionStrategy.AuctionUnset

/-- `SoftDollarTier` from the source: three descriptive strings.  Its
`#[derive(..., Default)]` gives empty strings; note that unlike `Order`,
`OrderState` and `OrderComboLeg` it carries no `#[serde(default)]`
container attribute. -/
structure SoftDollarTier where
  name : String
  val : String
  display_name : String
deriving DecidableEq

def SoftDollarTier.new (name val display_name : String) : SoftDollarTier :=
  ⟨name, val, display_name⟩

def SoftDollarTier.default : SoftDollarTier := ⟨"", "", ""⟩

/-- `OrderState` from the source: the broker-reported snapshot.  The
`#[derive(Default)]` defaults are empty strings and `0.0` commissions. -/
structure OrderState where
  status : String
  init_margin_before : String
  maint_margin_before : String
  equity_with_loan_before : String
  init_margin_change : String
  maint_margin_change : String
  equity_with_loan_change : String
  init_margin_after : String
  maint_margin_after : String
  equity_with_loan_after : String
  commission : f64
  min_commission : f64
  max_commission : f64
  commission_currency : String
  warning_text : String
  completed_time : String
  completed_status : String
deriving DecidableEq

/-- `OrderComboLeg` from the source: one price per combination leg;
derived `Default` gives `price = 0.0`. -/
structure OrderComboLeg where
  price : f64
deriving DecidableEq

def OrderComboLeg.new (price : f64) : OrderComboLeg := ⟨price⟩

/-! ### Decimal rendering of `f64` values

Modelled from the spec: the Rust standard library's float formatting
(`{:?}`, `{}`, `{:E}`) is outside this repository.  Per the spec, sentinel
values are rendered "in a distinguishable scientific form, non-sentinel
values in normal decimal form"; these helpers render the exact decimal
expansion of the (dyadic) rational, where Rust prints the shortest
round-tripping decimal of the same value. -/

/-- Multiplicity of the factor `p` in `n`, with explicit fuel so that it
reduces by kernel computation (`n` itself is always enough fuel). -/
def factorCountAux (p : Nat) : Nat → Nat → Nat
  | 0, _ => 0
  | fuel + 1, n =>
      if 1 < p ∧ 0 < n ∧ n % p = 0 then factorCountAux p fuel (n / p) + 1 else 0

/-- Multiplicity of the factor `p` in `n`. -/
def factorCount (p n : Nat) : Nat := factorCountAux p n n

def stripTrailingZeros (s : String) : String :=
  String.mk ((s.data.reverse.dropWhile (fun c => c = '0')).reverse)

/-- Digits of `m / 10 ^ k` (with `k ≥ 1`) in fixed-point form. -/
def decFixed (m k : Nat) : String :=
  let ds := toString m
  if k < ds.length then
    (ds.take (ds.length - k)) ++ "." ++ (ds.drop (ds.length - k))
  else
    "0." ++ String.mk (List.replicate (k - ds.length) '0') ++ ds

/-- `(m, k)` with `|x| = m / 10 ^ k`, valid when the denominator of `x`
factors as `2 ^ a * 5 ^ b`. -/
def decScale (x : ℚ) : Nat × Nat :=
  let a := factorCount 2 x.den
  let b := factorCount 5 x.den
  let k := max a b
  (x.num.natAbs * 2 ^ (k - a) * 5 ^ (k - b), k)

/-- Rust `{:?}` (Debug) rendering for `f64`: normal decimal form with at
least one fractional digit (`0.0`, `50.5`, `100.0`).  The final branch is
unreachable for values representable as binary floats. -/
def fmtDebugF64 (x : f64) : String :=
  if x = 0 then "0.0"
  else
    let sgn := if x.num < 0 then "-" else ""
    let a := factorCount 2 x.den
    let b := factorCount 5 x.den
    if 2 ^ a * 5 ^ b = x.den then
      let mk := decScale x
      if mk.2 = 0 then sgn ++ toString mk.1 ++ ".0"
      else sgn ++ decFixed mk.1 mk.2
    else sgn ++ toString x.num.natAbs ++ "/" ++ toString x.den

/-- Rust `{}` (Display) rendering for `f64`: like `fmtDebugF64` but with no
forced fractional digit (`100`, `2.5`). -/
def fmtDisplayF64 (x : f64) : String :=
  if x = 0 then "0"
  else
    let sgn := if x.num < 0 then "-" else ""
    let a := factorCount 2 x.den
    let b := factorCount 5 x.den
    if 2 ^ a * 5 ^ b = x.den then
      let mk := decScale x
      if mk.2 = 0 then sgn ++ toString mk.1
      else sgn ++ decFixed mk.1 mk.2
    else sgn ++ toString x.num.natAbs ++ "/" ++ toString x.den

/-- Rust `{:E}` (UpperExp) rendering for `f64`: scientific form
`d.dddE±e`.  The final branch is unreachable for binary-float values. -/
def fmtUpperExpF64 (x : f64) : String :=
  if x = 0 then "0E0"
  else
    let sgn := if x.num < 0 then "-" else ""
    let a := factorCount 2 x.den
    let b := factorCount 5 x.den
    if 2 ^ a * 5 ^ b = x.den then
      let mk := decScale x
      let ds := toString mk.1
      let core := stripTrailingZeros ds
      let e : Int := (ds.length : Int) - 1 - (mk.2 : Int)
      let mant :=
        if core.length ≤ 1 then core
        else (core.take 1) ++ "." ++ (core.drop 1)
      sgn ++ mant ++ "E" ++ toString e
    else sgn ++ toString x.num.natAbs ++ "/" ++ toString x.den ++ "E0"

def boolStr (b : Bool) : String := if b then "true" else "false"

/-! ### Condition subsystem

`src/core/order_condition.rs` is not under `src/`.  The structures below are
modelled from the spec (§3 "Condition family", §4.3) and from the exact field
paths the source of `order.rs` dereferences
(`c.contract_condition.operator_condition.order_condition.…`). -/

/-- Modelled from the spec: the discriminant tag of the closed condition
family. -/
inductive ConditionType where
  | Price
  | Time
  | Margin
  | Execution
  | PercentChange
  | Volume
deriving DecidableEq

/-- Modelled from the spec / the `trigger_method` field comment in
`src/core/order.rs`: "0=Default, 1=Double_Bid_Ask, 2=Last, 3=Double_Last,
4=Bid_Ask, 7=Last_or_Bid_Ask, 8=Mid-point". -/
inductive TriggerMethod where
  | Default
  | DoubleBidAsk
  | Last
  | DoubleLast
  | BidAsk
  | LastBidAsk
  | MidPoint
deriving DecidableEq

/-- `num_traits::FromPrimitive::from_i32` for `TriggerMethod`: `some` only
on the exact discriminants 0, 1, 2, 3, 4, 7, 8. -/
def TriggerMethod.from_i32 (n : Int) : Option TriggerMethod :=
  if n = 0 then some TriggerMethod.Default
  else if n = 1 then some TriggerMethod.DoubleBidAsk
  else if n = 2 then some TriggerMethod.Last
  else if n = 3 then some TriggerMethod.DoubleLast
  else if n = 4 then some TriggerMethod.BidAsk
  else if n = 7 then some TriggerMethod.LastBidAsk
  else if n = 8 then some TriggerMethod.MidPoint
  else none

def TriggerMethod.to_i32 : TriggerMethod → Int
  | TriggerMethod.Default => 0
  | TriggerMethod.DoubleBidAsk => 1
  | TriggerMethod.Last => 2
  | TriggerMethod.DoubleLast => 3
  | TriggerMethod.BidAsk => 4
  | TriggerMethod.LastBidAsk => 7
  | TriggerMethod.MidPoint => 8

/-- Modelled from the spec: "a base condition carries a conjunction flag
and a discriminant tag". -/
structure OrderCondition where
  cond_type : ConditionType
  is_conjunction_connection : Bool
deriving DecidableEq

/-- Modelled from the spec: the operator layer adds the comparison
direction `is_more`. -/
structure OperatorCondition where
  order_condition : OrderCondition
  is_more : Bool
deriving DecidableEq

/-- Modelled from the spec: the contract layer adds the instrument scope
(contract id and exchange). -/
structure ContractCondition where
  operator_condition : OperatorCondition
  con_id : Int
  exchange : String
deriving DecidableEq

structure PriceCondition where
  contract_condition : ContractCondition
  price : f64
  trigger_method : TriggerMethod
deriving DecidableEq

structure TimeCondition where
  operator_condition : OperatorCondition
  time : String
deriving DecidableEq

structure MarginCondition where
  operator_condition : OperatorCondition
  percent : f64
deriving DecidableEq

structure ExecutionCondition where
  order_condition : OrderCondition
  sec_type : String
  exchange : String
  symbol : String
deriving DecidableEq

structure PercentChangeCondition where
  contract_condition : ContractCondition
  change_percent : f64
deriving DecidableEq

structure VolumeCondition where
  contract_condition : ContractCondition
  volume : Int
deriving DecidableEq

/-- The closed tagged union of the six condition variants. -/
inductive OrderConditionEnum where
  | Price (c : PriceCondition)
  | Time (c : TimeCondition)
  | Margin (c : MarginCondition)
  | Execution (c : ExecutionCondition)
  | PercentChange (c : PercentChangeCondition)
  | Volume (c : VolumeCondition)
deriving DecidableEq

def OrderCondition.mkDefault (t : ConditionType) : OrderCondition :=
  ⟨t, false⟩

def OperatorCondition.mkDefault (t : ConditionType) : OperatorCondition :=
  ⟨OrderCondition.mkDefault t, false⟩

def ContractCondition.mkDefault (t : ConditionType) : ContractCondition :=
  ⟨OperatorCondition.mkDefault t, 0, ""⟩

/-- Modelled from the spec: `create_condition` returns the variant selected
by the given discriminant tag, with every other field defaulted and the
embedded `cond_type` set to that tag. -/
def create_condition : ConditionType → OrderConditionEnum
  | ConditionType.Price =>
      OrderConditionEnum.Price
        ⟨ContractCondition.mkDefault ConditionType.Price, 0, TriggerMethod.Default⟩
  | ConditionType.Time =>
      OrderConditionEnum.Time ⟨OperatorCondition.mkDefault ConditionType.Time, ""⟩
  | ConditionType.Margin =>
      OrderConditionEnum.Margin ⟨OperatorCondition.mkDefault ConditionType.Margin, 0⟩
  | ConditionType.Execution =>
      OrderConditionEnum.Execution
        ⟨OrderCondition.mkDefault ConditionType.Execution, "", "", ""⟩
  | ConditionType.PercentChange =>
      OrderConditionEnum.PercentChange
        ⟨ContractCondition.mkDefault ConditionType.PercentChange, 0⟩
  | ConditionType.Volume =>
      OrderConditionEnum.Volume
        ⟨ContractCondition.mkDefault ConditionType.Volume, 0⟩

/-- Modelled from the spec: the `.into()` conversions `order.rs` applies to
the result of `create_condition`; a non-matching variant falls back to the
all-default value of the target type. -/
def OrderConditionEnum.intoPrice : OrderConditionEnum → PriceCondition
  | OrderConditionEnum.Price c => c
  | _ => ⟨ContractCondition.mkDefault ConditionType.Price, 0, TriggerMethod.Default⟩

def OrderConditionEnum.intoTime : OrderConditionEnum → TimeCondition
  | OrderConditionEnum.Time c => c
  | _ => ⟨OperatorCondition.mkDefault ConditionType.Time, ""⟩

def OrderConditionEnum.intoMargin : OrderConditionEnum → MarginCondition
  | OrderConditionEnum.Margin c => c
  | _ => ⟨OperatorCondition.mkDefault ConditionType.Margin, 0⟩

def OrderConditionEnum.intoExecution : OrderConditionEnum → ExecutionCondition
  | OrderConditionEnum.Execution c => c
  | _ => ⟨OrderCondition.mkDefault ConditionType.Execution, "", "", ""⟩

def OrderConditionEnum.intoPercentChange : OrderConditionEnum → PercentChangeCondition
  | OrderConditionEnum.PercentChange c => c
  | _ => ⟨ContractCondition.mkDefault ConditionType.PercentChange, 0⟩

def OrderConditionEnum.intoVolume : OrderConditionEnum → VolumeCondition
  | OrderConditionEnum.Volume c => c
  | _ => ⟨ContractCondition.mkDefault ConditionType.Volume, 0⟩

def ConditionType.tagStr : ConditionType → String
  | ConditionType.Price => "Price"
  | ConditionType.Time => "Time"
  | ConditionType.Margin => "Margin"
  | ConditionType.Execution => "Execution"
  | ConditionType.PercentChange => "PercentChange"
  | ConditionType.Volume => "Volume"

/-- Modelled from the spec (§4.3): each variant's serialization emits, in
this fixed order, the discriminant tag, the conjunction flag, the contract
scope fields (con_id, exchange) if present, the operator field (is_more) if
present, then the variant's own payload.  The spec names no failure mode
for this serialization, so every variant yields `Except.ok`. -/
def make_fields : OrderConditionEnum → Except String (List String)
  | OrderConditionEnum.Price c =>
      Except.ok [ConditionType.tagStr c.contract_condition.operator_condition.order_condition.cond_type,
        boolStr c.contract_condition.operator_condition.order_condition.is_conjunction_connection,
        toString c.contract_condition.con_id, c.contract_condition.exchange,
        boolStr c.contract_condition.operator_condition.is_more,
        fmtDebugF64 c.price, toString c.trigger_method.to_i32]
  | OrderConditionEnum.Time c =>
      Except.ok [ConditionType.tagStr c.operator_condition.order_condition.cond_type,
        boolStr c.operator_condition.order_condition.is_conjunction_connection,
        boolStr c.operator_condition.is_more, c.time]
  | OrderConditionEnum.Margin c =>
      Except.ok [ConditionType.tagStr c.operator_condition.order_condition.cond_type,
        boolStr c.operator_condition.order_condition.is_conjunction_connection,
        boolStr c.operator_condition.is_more, fmtDebugF64 c.percent]
  | OrderConditionEnum.Execution c =>
      Except.ok [ConditionType.tagStr c.order_condition.cond_type,
        boolStr c.order_condition.is_conjunction_connection,
        c.symbol, c.sec_type, c.exchange]
  | OrderConditionEnum.PercentChange c =>
      Except.ok [ConditionType.tagStr c.contract_condition.operator_condition.order_condition.cond_type,
        boolStr c.contract_condition.operator_condition.order_condition.is_conjunction_connection,
        toString c.contract_condition.con_id, c.contract_condition.exchange,
        boolStr c.contract_condition.operator_condition.is_more,
        fmtDebugF64 c.change_percent]
  | OrderConditionEnum.Volume c =>
      Except.ok [ConditionType.tagStr c.contract_condition.operator_condition.order_condition.cond_type,
        boolStr c.contract_condition.operator_condition.order_condition.is_conjunction_connection,
        toString c.contract_condition.con_id, c.contract_condition.exchange,
        boolStr c.contract_condition.operator_condition.is_more,
        toString c.volume]

/-- `Order` from `src/core/order.rs`: the aggregate record, fields in
source order. -/
structure Order where
  soft_dollar_tier : SoftDollarTier
  order_id : Int
  client_id : Int
  perm_id : Int
  action : String
  total_quantity : f64
  order_type : String
  lmt_price : f64
  aux_price : f64
  tif : String
  active_start_time : String
  active_stop_time : String
  oca_group : String
  oca_type : Int
  order_ref : String
  transmit : Bool
  parent_id : Int
  block_order : Bool
  sweep_to_fill : Bool
  display_size : Int
  trigger_method : Int
  outside_rth : Bool
  hidden : Bool
  good_after_time : String
  good_till_date : String
  rule80a : String
  all_or_none : Bool
  min_qty : Int
  percent_offset : f64
  override_percentage_constraints : Bool
  trail_stop_price : f64
  trailing_percent : f64
  fa_group : String
  fa_profile : String
  fa_method : String
  fa_percentage : String
  designated_location : String
  open_close : String
  origin : Origin
  short_sale_slot : Int
  exempt_code : Int
  discretionary_amt : f64
  e_trade_only : Bool
  firm_quote_only : Bool
  nbbo_price_cap : f64
  opt_out_smart_routing : Bool
  auction_strategy : AuctionStrategy
  starting_price : f64
  stock_ref_price : f64
  delta : f64
  stock_range_lower : f64
  stock_range_upper : f64
  randomize_price : Bool
  randomize_size : Bool
  volatility : f64
  volatility_type : Int
  delta_neutral_order_type : String
  delta_neutral_aux_price : f64
  delta_neutral_con_id : Int
  delta_neutral_settling_firm : String
  delta_neutral_clearing_account : String
  delta_neutral_clearing_intent : String
  delta_neutral_open_close : String
  delta_neutral_short_sale : Bool
  delta_neutral_short_sale_slot : Int
  delta_neutral_designated_location : String
  continuous_update : Bool
  reference_price_type : Int
  basis_points : f64
  basis_points_type : Int
  scale_init_level_size : Int
  scale_subs_level_size : Int
  scale_price_increment : f64
  scale_price_adjust_value : f64
  scale_price_adjust_interval : Int
  scale_profit_offset : f64
  scale_auto_reset : Bool
  scale_init_position : Int
  scale_init_fill_qty : Int
  scale_random_percent : Bool
  scale_table : String
  hedge_type : String
  hedge_param : String
  account : String
  settling_firm : String
  clearing_account : String
  clearing_intent : String
  algo_strategy : String
  algo_params : List TagValue
  smart_combo_routing_params : List TagValue
  algo_id : String
  what_if : Bool
  not_held : Bool
  solicited : Bool
  model_code : String
  order_combo_legs : List OrderComboLeg
  order_misc_options : List TagValue
  reference_contract_id : Int
  pegged_change_amount : f64
  is_pegged_change_amount_decrease : Bool
  reference_change_amount : f64
  reference_exchange_id : String
  adjusted_order_type : String
  trigger_price : f64
  adjusted_stop_price : f64
  adjusted_stop_limit_price : f64
  adjusted_trailing_amount : f64
  adjustable_trailing_unit : Int
  lmt_price_offset : f64
  conditions : List OrderConditionEnum
  conditions_cancel_order : Bool
  conditions_ignore_rth : Bool
  ext_operator : String
  cash_qty : f64
  mifid2decision_maker : String
  mifid2decision_algo : String
  mifid2execution_trader : String
  mifid2execution_algo : String
  dont_use_auto_price_for_hedge : Bool
  is_oms_container : Bool
  discretionary_up_to_limit_price : Bool
  auto_cancel_date : String
  filled_quantity : f64
  ref_futures_con_id : Int
  auto_cancel_parent : Bool
  shareholder : String
  imbalance_only : Bool
  route_marketable_to_bbo : Bool
  parent_perm_id : Int
  use_price_mgmt_algo : Bool
deriving DecidableEq

/-- `impl Default for Order` from `src/core/order.rs`, field for field. -/
def Order.default : Order where
  soft_dollar_tier := SoftDollarTier.new "" "" ""
  order_id := 0
  client_id := 0
  perm_id := 0
  action := ""
  total_quantity := 0
  order_type := ""
  lmt_price := UNSET_DOUBLE
  aux_price := UNSET_DOUBLE
  tif := ""
  active_start_time := ""
  active_stop_time := ""
  oca_group := ""
  oca_type := 0
  order_ref := ""
  transmit := true
  parent_id := 0
  block_order := false
  sweep_to_fill := false
  display_size := 0
  trigger_method := 0
  outside_rth := false
  hidden := false
  good_after_time := ""
  good_till_date := ""
  rule80a := ""
  all_or_none := false
  min_qty := UNSET_INTEGER
  percent_offset := UNSET_DOUBLE
  override_percentage_constraints := false
  trail_stop_price := UNSET_DOUBLE
  trailing_percent := UNSET_DOUBLE
  fa_group := ""
  fa_profile := ""
  fa_method := ""
  fa_percentage := ""
  designated_location := ""
  open_close := "O"
  origin := Origin.Customer
  short_sale_slot := 0
  exempt_code := -1
  discretionary_amt := 0
  e_trade_only := true
  firm_quote_only := true
  nbbo_price_cap := UNSET_DOUBLE
  opt_out_smart_routing := false
  auction_strategy := AuctionStrategy.AuctionUnset
  starting_price := UNSET_DOUBLE
  stock_ref_price := UNSET_DOUBLE
  delta := UNSET_DOUBLE
  stock_range_lower := UNSET_DOUBLE
  stock_range_upper := UNSET_DOUBLE
  randomize_price := false
  randomize_size := false
  volatility := UNSET_DOUBLE
  volatility_type := UNSET_INTEGER
  delta_neutral_order_type := ""
  delta_neutral_aux_price := UNSET_DOUBLE
  delta_neutral_con_id := 0
  delta_neutral_settling_firm := ""
  delta_neutral_clearing_account := ""
  delta_neutral_clearing_intent := ""
  delta_neutral_open_close := ""
  delta_neutral_short_sale := false
  delta_neutral_short_sale_slot := 0
  delta_neutral_designated_location := ""
  continuous_update := false
  reference_price_type := UNSET_INTEGER
  basis_points := UNSET_DOUBLE
  basis_points_type := UNSET_INTEGER
  scale_init_level_size := UNSET_INTEGER
  scale_subs_level_size := UNSET_INTEGER
  scale_price_increment := UNSET_DOUBLE
  scale_price_adjust_value := UNSET_DOUBLE
  scale_price_adjust_interval := UNSET_INTEGER
  scale_profit_offset := UNSET_DOUBLE
  scale_auto_reset := false
  scale_init_position := UNSET_INTEGER
  scale_init_fill_qty := UNSET_INTEGER
  scale_random_percent := false
  scale_table := ""
  hedge_type := ""
  hedge_param := ""
  account := ""
  settling_firm := ""
  clearing_account := ""
  clearing_intent := ""
  algo_strategy := ""
  algo_params := []
  smart_combo_routing_params := []
  algo_id := ""
  what_if := false
  not_held := false
  solicited := false
  model_code := ""
  order_combo_legs := []
  order_misc_options := []
  reference_contract_id := 0
  pegged_change_amount := 0
  is_pegged_change_amount_decrease := false
  reference_change_amount := 0
  reference_exchange_id := ""
  adjusted_order_type := ""
  trigger_price := UNSET_DOUBLE
  adjusted_stop_price := UNSET_DOUBLE
  adjusted_stop_limit_price := UNSET_DOUBLE
  adjusted_trailing_amount := UNSET_DOUBLE
  adjustable_trailing_unit := 0
  lmt_price_offset := UNSET_DOUBLE
  conditions := []
  conditions_cancel_order := false
  conditions_ignore_rth := false
  ext_operator := ""
  cash_qty := UNSET_DOUBLE
  mifid2decision_maker := ""
  mifid2decision_algo := ""
  mifid2execution_trader := ""
  mifid2execution_algo := ""
  dont_use_auto_price_for_hedge := false
  is_oms_container := false
  discretionary_up_to_limit_price := false
  auto_cancel_date := ""
  filled_quantity := UNSET_DOUBLE
  ref_futures_con_id := 0
  auto_cancel_parent := false
  shareholder := ""
  imbalance_only := false
  route_marketable_to_bbo := false
  parent_perm_id := 0
  use_price_mgmt_algo := false

/-! ### Preset factory functions (from `src/core/order.rs`) -/

/-- `Order::stop_limit_order` from the source. -/
def Order.stop_limit_order (account action : String) (quantity limit_price stop_price : f64) :
    Order :=
  { Order.default with
    account := account
    action := action
    order_type := "STP LMT"
    total_quantity := quantity
    lmt_price := limit_price
    aux_price := stop_price }

/-- `Order::bracket_order` from the source.  The child ids are computed by
`i32` addition (`parent.order_id + 1` / `+ 2`), hence `i32wrap`. -/
def Order.bracket_order (parent_order_id : Int) (account action : String)
    (quantity limit_price take_profit_limit_price stop_loss_price : f64) :
    Order × Order × Order :=
  let parent : Order :=
    { Order.default with
      order_id := parent_order_id
      account := account
      action := action
      order_type := "LMT"
      total_quantity := quantity
      lmt_price := limit_price
      transmit := false }
  let take_profit : Order :=
    { Order.default with
      order_id := i32wrap (parent.order_id + 1)
      action := if action = "BUY" then "SELL" else "BUY"
      order_type := "LMT"
      total_quantity := quantity
      lmt_price := take_profit_limit_price
      parent_id := parent_order_id
      transmit := false }
  let stop_loss : Order :=
    { Order.default with
      order_id := i32wrap (parent.order_id + 2)
      action := if action = "BUY" then "SELL" else "BUY"
      order_type := "STP"
      aux_price := stop_loss_price
      total_quantity := quantity
      parent_id := parent_order_id
      transmit := true }
  (parent, take_profit, stop_loss)

/-- `Order::limit_for_combo_with_leg_prices_order` from the source. -/
def Order.limit_for_combo_with_leg_prices_order (account action : String)
    (quantity : f64) (leg_prices : List f64) (non_guaranteed : Bool) : Order :=
  let order : Order :=
    { Order.default with
      account := account
      action := action
      order_type := "LMT"
      total_quantity := quantity
      order_combo_legs := leg_prices.map (fun price => OrderComboLeg.new price) }
  if non_guaranteed then
    { order with
      smart_combo_routing_params :=
        order.smart_combo_routing_params ++ [TagValue.new "NonGuaranteed" "1"] }
  else order

/-- `Order::one_cancels_all_order` from the source.  The Rust signature is
`fn one_cancels_all_order(oca_group: &str, oca_orders: Vec<Self>, oca_type: i32)`:
the vector is taken by value (moved), the loop `for mut order in oca_orders`
mutates each moved element locally, the updated copies are dropped at the end
of the loop body, and the function returns `()`. -/
def Order.one_cancels_all_order (oca_group : String) (oca_orders : List Order)
    (oca_type : Int) : Unit :=
  let _updated :=
    oca_orders.map (fun order =>
      { order with oca_group := oca_group, oca_type := oca_type })
  ()

/-- The per-element update computed (and then dropped) by the loop body of
`one_cancels_all_order`. -/
def Order.one_cancels_all_updates (oca_group : String) (oca_orders : List Order)
    (oca_type : Int) : List Order :=
  oca_orders.map (fun order =>
    { order with oca_group := oca_group, oca_type := oca_type })

/-- `Order::price_condition_order` from the source.  The Rust code calls
`FromPrimitive::from_i32(trigger_method).unwrap()`; `none` models the
panic of `unwrap` on a `trigger_method` that is no `TriggerMethod`
discriminant. -/
def Order.price_condition_order (trigger_method con_id : Int) (exchange : String)
    (price : f64) (is_more is_conjunction : Bool) : Option PriceCondition :=
  let price_condition := (create_condition ConditionType.Price).intoPrice
  let price_condition :=
    { price_condition with
      contract_condition :=
        { price_condition.contract_condition with
          con_id := con_id
          exchange := exchange
          operator_condition :=
            { price_condition.contract_condition.operator_condition with
              is_more := is_more } } }
  match TriggerMethod.from_i32 trigger_method with
  | none => none
  | some tm =>
      some { price_condition with
        trigger_method := tm
        price := price
        contract_condition :=
          { price_condition.contract_condition with
            operator_condition :=
              { price_condition.contract_condition.operator_condition with
                order_condition :=
                  { price_condition.contract_condition.operator_condition.order_condition with
                    is_conjunction_connection := is_conjunction } } } }

/-- `Order::execution_condition_order` from the source. -/
def Order.execution_condition_order (symbol sec_type exchange : String)
    (is_conjunction : Bool) : ExecutionCondition :=
  let exec_condition := (create_condition ConditionType.Execution).intoExecution
  { exec_condition with
    symbol := symbol
    exchange := exchange
    sec_type := sec_type
    order_condition :=
      { exec_condition.order_condition with
        is_conjunction_connection := is_conjunction
        cond_type := ConditionType.Execution } }

/-- `Order::margin_condition_order` from the source. -/
def Order.margin_condition_order (percent : f64) (is_more is_conjunction : Bool) :
    MarginCondition :=
  let margin_condition := (create_condition ConditionType.Margin).intoMargin
  { margin_condition with
    percent := percent
    operator_condition :=
      { margin_condition.operator_condition with
        is_more := is_more
        order_condition :=
          { margin_condition.operator_condition.order_condition with
            is_conjunction_connection := is_conjunction
            cond_type := ConditionType.Margin } } }

/-- `Order::percentage_change_condition_order` from the source.  Note the
source creates the base via `create_condition(ConditionType::Execution)`
and then overwrites `cond_type` with `PercentChange`. -/
def Order.percentage_change_condition_order (pct_change : f64) (con_id : Int)
    (exchange : String) (is_more is_conjunction : Bool) : PercentChangeCondition :=
  let pct_change_condition := (create_condition ConditionType.Execution).intoPercentChange
  { pct_change_condition with
    change_percent := pct_change
    contract_condition :=
      { pct_change_condition.contract_condition with
        con_id := con_id
        exchange := exchange
        operator_condition :=
          { pct_change_condition.contract_condition.operator_condition with
            is_more := is_more
            order_condition :=
              { pct_change_condition.contract_condition.operator_condition.order_condition with
                is_conjunction_connection := is_conjunction
                cond_type := ConditionType.PercentChange } } } }

/-- `Order::time_condition_order` from the source. -/
def Order.time_condition_order (time : String) (is_more is_conjunction : Bool) :
    TimeCondition :=
  let time_condition := (create_condition ConditionType.Time).intoTime
  { time_condition with
    time := time
    operator_condition :=
      { time_condition.operator_condition with
        is_more := is_more
        order_condition :=
          { time_condition.operator_condition.order_condition with
            is_conjunction_connection := is_conjunction
            cond_type := ConditionType.Time } } }

/-- `Order::volume_condition_order` from the source. -/
def Order.volume_condition_order (con_id : Int) (exchange : String)
    (is_more : Bool) (volume : Int) (is_conjunction : Bool) : VolumeCondition :=
  let vol_cond := (create_condition ConditionType.Volume).intoVolume
  { vol_cond with
    volume := volume
    contract_condition :=
      { vol_cond.contract_condition with
        con_id := con_id
        exchange := exchange
        operator_condition :=
          { vol_cond.contract_condition.operator_condition with
            is_more := is_more
            order_condition :=
              { vol_cond.contract_condition.operator_condition.order_condition with
                is_conjunction_connection := is_conjunction
                cond_type := ConditionType.Volume } } } }

/-! ### Display rendering (from the `impl Display` blocks in the source) -/

/-- The rendering of `lmt_price` inside `impl Display for Order`:
`if self.lmt_price == UNSET_DOUBLE { format!("{:E}", …) } else { format!("{:?}", …) }`. -/
def Order.lmt_price_str (o : Order) : String :=
  if o.lmt_price = UNSET_DOUBLE then fmtUpperExpF64 o.lmt_price
  else fmtDebugF64 o.lmt_price

/-- The rendering of `commission` inside `impl Display for OrderState`. -/
def OrderState.commission_str (s : OrderState) : String :=
  if s.commission = UNSET_DOUBLE then fmtUpperExpF64 s.commission
  else fmtDebugF64 s.commission

/-- The rendering of `min_commission` inside `impl Display for OrderState`. -/
def OrderState.min_commission_str (s : OrderState) : String :=
  if s.min_commission = UNSET_DOUBLE then fmtUpperExpF64 s.min_commission
  else fmtDebugF64 s.min_commission

/-- The rendering of `max_commission` inside `impl Display for OrderState`. -/
def OrderState.max_commission_str (s : OrderState) : String :=
  if s.max_commission = UNSET_DOUBLE then fmtUpperExpF64 s.max_commission
  else fmtDebugF64 s.max_commission

/-- `impl Display for OrderState` from the source. -/
def OrderState.display (s : OrderState) : String :=
  "status: " ++ s.status ++
  "\ninit_margin_before: " ++ s.init_margin_before ++
  "\nmaint_margin_before: " ++ s.maint_margin_before ++
  "\nequity_with_loan_before: " ++ s.equity_with_loan_before ++
  "\ninit_margin_change: " ++ s.init_margin_change ++
  "\nmaint_margin_change: " ++ s.maint_margin_change ++
  "\nequity_with_loan_change: " ++ s.equity_with_loan_change ++
  "\ninit_margin_after: " ++ s.init_margin_after ++
  "\nmaint_margin_after: " ++ s.maint_margin_after ++
  "\nequity_with_loan_after: " ++ s.equity_with_loan_after ++
  "\ncommission: " ++ s.commission_str ++
  "\nmin_commission: " ++ s.min_commission_str ++
  "\nmax_commission: " ++ s.max_commission_str ++
  "\ncommission_currency: " ++ s.commission_currency ++
  "\nwarning_text: " ++ s.warning_text ++
  "\ncompleted_time: " ++ s.completed_time ++
  "\ncompleted_status: " ++ s.completed_status

/-- The `COND` block of `impl Display for Order`: per condition the source
runs `x.make_fields().unwrap().as_slice().join(",")` followed by `"|"`;
`none` models the panic of `unwrap` on an `Err`. -/
def condFieldStrings : List OrderConditionEnum → Option (List String)
  | [] => some []
  | c :: cs => do
      let fs ← (make_fields c).toOption
      let rest ← condFieldStrings cs
      pure ((String.intercalate "," fs ++ "|") :: rest)

/-- `impl Display for Order` from the source.  `none` models a panic of the
`unwrap` inside the `COND` block; every other piece is total. -/
def Order.display (o : Order) : Option String := do
  let condBlock ←
    if o.conditions.isEmpty then pure ""
    else do
      let parts ← condFieldStrings o.conditions
      pure (String.join parts)
  let algoBlock :=
    if o.algo_params.isEmpty then ""
    else String.intercalate ","
      (o.algo_params.map (fun t => t.tag ++ " = " ++ t.value))
  let cmbBlock :=
    if o.order_combo_legs.isEmpty then ""
    else String.intercalate ","
      (o.order_combo_legs.map (fun x => fmtDisplayF64 x.price))
  pure ("order_id = " ++ toString o.order_id ++
    "\nclient_id = " ++ toString o.client_id ++
    "\nperm_id = " ++ toString o.perm_id ++
    "\norder_type = " ++ o.order_type ++
    "\naction = " ++ o.action ++
    "\ntotal_quantity = " ++ fmtDisplayF64 o.total_quantity ++
    "\nlmt_price = " ++ o.lmt_price_str ++
    "\ntif = " ++ o.tif ++
    "\nwhat_if = " ++ boolStr o.what_if ++
    "\nalgo_strategy = " ++ o.algo_strategy ++
    "\nalgo_params = (" ++ algoBlock ++
    ")\nCMB = (" ++ cmbBlock ++
    ")\nCOND = (" ++ condBlock ++ ")")

/-! ### Structured decoding

Model of the serde-derived deserializers.  A structured record is a list of
(field name, value) pairs.  A struct whose source carries the container
attribute `#[serde(default)]` (`Order`, `OrderState`, `OrderComboLeg`) fills
every absent field from its `Default` value; a struct without it
(`SoftDollarTier`) requires every field to be present.  Unknown fields are
ignored, as serde does by default. -/

/-- A structured (JSON-like) value. -/
inductive Value where
  | str (s : String)
  | num (q : ℚ)
  | bool (b : Bool)
  | arr (vs : List Value)
  | obj (fields : List (String × Value))

def parseF64 : Value → Except String f64
  | Value.num q => Except.ok q
  | _ => Except.error "expected number"

def parseInt : Value → Except String Int
  | Value.num q => if q.den = 1 then Except.ok q.num else Except.error "expected integer"
  | _ => Except.error "expected integer"

def parseBool : Value → Except String Bool
  | Value.bool b => Except.ok b
  | _ => Except.error "expected boolean"

def parseStr : Value → Except String String
  | Value.str s => Except.ok s
  | _ => Except.error "expected string"

def parseList (p : Value → Except String α) : Value → Except String (List α)
  | Value.arr vs => vs.mapM p
  | _ => Except.error "expected array"

def asObj : Value → Except String (List (String × Value))
  | Value.obj fields => Except.ok fields
  | _ => Except.error "expected object"

/-- A field with a default: absent means the default (container
`#[serde(default)]` semantics). -/
def optField (r : List (String × Value)) (name : String)
    (p : Value → Except String α) (dflt : α) : Except String α :=
  match r.lookup name with
  | none => Except.ok dflt
  | some v => p v

/-- A required field: absent is a decode error (no `#[serde(default)]`). -/
def reqField (r : List (String × Value)) (name : String)
    (p : Value → Except String α) : Except String α :=
  match r.lookup name with
  | none => Except.error ("missing field " ++ name)
  | some v => p v

/-- serde of a unit-variant enum: the variant name as a string. -/
def Origin.fromValue : Value → Except String Origin
  | Value.str "Customer" => Except.ok Origin.Customer
  | Value.str "Firm" => Except.ok Origin.Firm
  | Value.str "Unknown" => Except.ok Origin.Unknown
  | _ => Except.error "unknown Origin variant"

def AuctionStrategy.fromValue : Value → Except String AuctionStrategy
  | Value.str "AuctionUnset" => Except.ok AuctionStrategy.AuctionUnset
  | Value.str "AuctionMatch" => Except.ok AuctionStrategy.AuctionMatch
  | Value.str "AuctionImprovement" => Except.ok AuctionStrategy.AuctionImprovement
  | Value.str "AuctionTransparent" => Except.ok AuctionStrategy.AuctionTransparent
  | _ => Except.error "unknown AuctionStrategy variant"

def ConditionType.fromValue : Value → Except String ConditionType
  | Value.str "Price" => Except.ok ConditionType.Price
  | Value.str "Time" => Except.ok ConditionType.Time
  | Value.str "Margin" => Except.ok ConditionType.Margin
  | Value.str "Execution" => Except.ok ConditionType.Execution
  | Value.str "PercentChange" => Except.ok ConditionType.PercentChange
  | Value.str "Volume" => Except.ok ConditionType.Volume
  | _ => Except.error "unknown ConditionType variant"

def TriggerMethod.fromValue : Value → Except String TriggerMethod
  | Value.str "Default" => Except.ok TriggerMethod.Default
  | Value.str "DoubleBidAsk" => Except.ok TriggerMethod.DoubleBidAsk
  | Value.str "Last" => Except.ok TriggerMethod.Last
  | Value.str "DoubleLast" => Except.ok TriggerMethod.DoubleLast
  | Value.str "BidAsk" => Except.ok TriggerMethod.BidAsk
  | Value.str "LastBidAsk" => Except.ok TriggerMethod.LastBidAsk
  | Value.str "MidPoint" => Except.ok TriggerMethod.MidPoint
  | _ => Except.error "unknown TriggerMethod variant"

/-- `SoftDollarTier` decode: its derive carries no `#[serde(default)]`, so
all three fields are required. -/
def SoftDollarTier.fromRecord (r : List (String × Value)) :
    Except String SoftDollarTier := do
  let name ← reqField r "name" parseStr
  let v ← reqField r "val" parseStr
  let display_name ← reqField r "display_name" parseStr
  Except.ok ⟨name, v, display_name⟩

def SoftDollarTier.fromValue (v : Value) : Except String SoftDollarTier := do
  SoftDollarTier.fromRecord (← asObj v)

/-- Modelled from the spec: `TagValue` decode (from `core::common`, not
under `src/`), fields defaulted when absent. -/
def TagValue.fromRecord (r : List (String × Value)) : Except String TagValue := do
  let tag ← optField r "tag" parseStr ""
  let v ← optField r "value" parseStr ""
  Except.ok ⟨tag, v⟩

def TagValue.fromValue (v : Value) : Except String TagValue := do
  TagValue.fromRecord (← asObj v)

/-- `OrderComboLeg` decode: container `#[serde(default)]`, one field. -/
def OrderComboLeg.fromRecord (r : List (String × Value)) :
    Except String OrderComboLeg := do
  let price ← optField r "price" parseF64 0
  Except.ok ⟨price⟩

def OrderComboLeg.fromValue (v : Value) : Except String OrderComboLeg := do
  OrderComboLeg.fromRecord (← asObj v)

/-- Modelled from the spec (§6 "Persistence"): condition variants decode
with every field defaulted when absent. -/
def OrderCondition.fromRecord (r : List (String × Value)) :
    Except String OrderCondition := do
  let t ← optField r "cond_type" ConditionType.fromValue ConditionType.Price
  let c ← optField r "is_conjunction_connection" parseBool false
  Except.ok ⟨t, c⟩

def OrderCondition.fromValue (v : Value) : Except String OrderCondition := do
  OrderCondition.fromRecord (← asObj v)

def OperatorCondition.fromRecord (r : List (String × Value)) :
    Except String OperatorCondition := do
  let oc ← optField r "order_condition" OrderCondition.fromValue ⟨ConditionType.Price, false⟩
  let m ← optField r "is_more" parseBool false
  Except.ok ⟨oc, m⟩

def OperatorCondition.fromValue (v : Value) : Except String OperatorCondition := do
  OperatorCondition.fromRecord (← asObj v)

def ContractCondition.fromRecord (r : List (String × Value)) :
    Except String ContractCondition := do
  let op ← optField r "operator_condition" OperatorCondition.fromValue
    ⟨⟨ConditionType.Price, false⟩, false⟩
  let cid ← optField r "con_id" parseInt 0
  let ex ← optField r "exchange" parseStr ""
  Except.ok ⟨op, cid, ex⟩

def ContractCondition.fromValue (v : Value) : Except String ContractCondition := do
  ContractCondition.fromRecord (← asObj v)

def defaultContractCondition : ContractCondition := ⟨⟨⟨ConditionType.Price, false⟩, false⟩, 0, ""⟩

def OrderConditionEnum.fromValue (v : Value) : Except String OrderConditionEnum := do
  match v with
  | Value.obj [("Price", body)] => do
      let r ← asObj body
      let cc ← optField r "contract_condition" ContractCondition.fromValue defaultContractCondition
      let p ← optField r "price" parseF64 0
      let tm ← optField r "trigger_method" TriggerMethod.fromValue TriggerMethod.Default
      Except.ok (OrderConditionEnum.Price ⟨cc, p, tm⟩)
  | Value.obj [("Time", body)] => do
      let r ← asObj body
      let op ← optField r "operator_condition" OperatorCondition.fromValue
        ⟨⟨ConditionType.Price, false⟩, false⟩
      let t ← optField r "time" parseStr ""
      Except.ok (OrderConditionEnum.Time ⟨op, t⟩)
  | Value.obj [("Margin", body)] => do
      let r ← asObj body
      let op ← optField r "operator_condition" OperatorCondition.fromValue
        ⟨⟨ConditionType.Price, false⟩, false⟩
      let p ← optField r "percent" parseF64 0
      Except.ok (OrderConditionEnum.Margin ⟨op, p⟩)
  | Value.obj [("Execution", body)] => do
      let r ← asObj body
      let oc ← optField r "order_condition" OrderCondition.fromValue ⟨ConditionType.Price, false⟩
      let st ← optField r "sec_type" parseStr ""
      let ex ← optField r "exchange" parseStr ""
      let sy ← optField r "symbol" parseStr ""
      Except.ok (OrderConditionEnum.Execution ⟨oc, st, ex, sy⟩)
  | Value.obj [("PercentChange", body)] => do
      let r ← asObj body
      let cc ← optField r "contract_condition" ContractCondition.fromValue defaultContractCondition
      let p ← optField r "change_percent" parseF64 0
      Except.ok (OrderConditionEnum.PercentChange ⟨cc, p⟩)
  | Value.obj [("Volume", body)] => do
      let r ← asObj body
      let cc ← optField r "contract_condition" ContractCondition.fromValue defaultContractCondition
      let vol ← optField r "volume" parseInt 0
      Except.ok (OrderConditionEnum.Volume ⟨cc, vol⟩)
  | _ => Except.error "unknown OrderConditionEnum variant"

/-- `Order` decode: container attribute `#[serde(default)]`, so every
absent field is filled from `Order::default()`. -/
def Order.fromRecord (r : List (String × Value)) : Except String Order := do
  let f_soft_dollar_tier ← optField r "soft_dollar_tier" (SoftDollarTier.fromValue) Order.default.soft_dollar_tier
  let f_order_id ← optField r "order_id" (parseInt) Order.default.order_id
  let f_client_id ← optField r "client_id" (parseInt) Order.default.client_id
  let f_perm_id ← optField r "perm_id" (parseInt) Order.default.perm_id
  let f_action ← optField r "action" (parseStr) Order.default.action
  let f_total_quantity ← optField r "total_quantity" (parseF64) Order.default.total_quantity
  let f_order_type ← optField r "order_type" (parseStr) Order.default.order_type
  let f_lmt_price ← optField r "lmt_price" (parseF64) Order.default.lmt_price
  let f_aux_price ← optField r "aux_price" (parseF64) Order.default.aux_price
  let f_tif ← optField r "tif" (parseStr) Order.default.tif
  let f_active_start_time ← optField r "active_start_time" (parseStr) Order.default.active_start_time
  let f_active_stop_time ← optField r "active_stop_time" (parseStr) Order.default.active_stop_time
  let f_oca_group ← optField r "oca_group" (parseStr) Order.default.oca_group
  let f_oca_type ← optField r "oca_type" (parseInt) Order.default.oca_type
  let f_order_ref ← optField r "order_ref" (parseStr) Order.default.order_ref
  let f_transmit ← optField r "transmit" (parseBool) Order.default.transmit
  let f_parent_id ← optField r "parent_id" (parseInt) Order.default.parent_id
  let f_block_order ← optField r "block_order" (parseBool) Order.default.block_order
  let f_sweep_to_fill ← optField r "sweep_to_fill" (parseBool) Order.default.sweep_to_fill
  let f_display_size ← optField r "display_size" (parseInt) Order.default.display_size
  let f_trigger_method ← optField r "trigger_method" (parseInt) Order.default.trigger_method
  let f_outside_rth ← optField r "outside_rth" (parseBool) Order.default.outside_rth
  let f_hidden ← optField r "hidden" (parseBool) Order.default.hidden
  let f_good_after_time ← optField r "good_after_time" (parseStr) Order.default.good_after_time
  let f_good_till_date ← optField r "good_till_date" (parseStr) Order.default.good_till_date
  let f_rule80a ← optField r "rule80a" (parseStr) Order.default.rule80a
  let f_all_or_none ← optField r "all_or_none" (parseBool) Order.default.all_or_none
  let f_min_qty ← optField r "min_qty" (parseInt) Order.default.min_qty
  let f_percent_offset ← optField r "percent_offset" (parseF64) Order.default.percent_offset
  let f_override_percentage_constraints ← optField r "override_percentage_constraints" (parseBool) Order.default.override_percentage_constraints
  let f_trail_stop_price ← optField r "trail_stop_price" (parseF64) Order.default.trail_stop_price
  let f_trailing_percent ← optField r "trailing_percent" (parseF64) Order.default.trailing_percent
  let f_fa_group ← optField r "fa_group" (parseStr) Order.default.fa_group
  let f_fa_profile ← optField r "fa_profile" (parseStr) Order.default.fa_profile
  let f_fa_method ← optField r "fa_method" (parseStr) Order.default.fa_method
  let f_fa_percentage ← optField r "fa_percentage" (parseStr) Order.default.fa_percentage
  let f_designated_location ← optField r "designated_location" (parseStr) Order.default.designated_location
  let f_open_close ← optField r "open_close" (parseStr) Order.default.open_close
  let f_origin ← optField r "origin" (Origin.fromValue) Order.default.origin
  let f_short_sale_slot ← optField r "short_sale_slot" (parseInt) Order.default.short_sale_slot
  let f_exempt_code ← optField r "exempt_code" (parseInt) Order.default.exempt_code
  let f_discretionary_amt ← optField r "discretionary_amt" (parseF64) Order.default.discretionary_amt
  let f_e_trade_only ← optField r "e_trade_only" (parseBool) Order.default.e_trade_only
  let f_firm_quote_only ← optField r "firm_quote_only" (parseBool) Order.default.firm_quote_only
  let f_nbbo_price_cap ← optField r "nbbo_price_cap" (parseF64) Order.default.nbbo_price_cap
  let f_opt_out_smart_routing ← optField r "opt_out_smart_routing" (parseBool) Order.default.opt_out_smart_routing
  let f_auction_strategy ← optField r "auction_strategy" (AuctionStrategy.fromValue) Order.default.auction_strategy
  let f_starting_price ← optField r "starting_price" (parseF64) Order.default.starting_price
  let f_stock_ref_price ← optField r "stock_ref_price" (parseF64) Order.default.stock_ref_price
  let f_delta ← optField r "delta" (parseF64) Order.default.delta
  let f_stock_range_lower ← optField r "stock_range_lower" (parseF64) Order.default.stock_range_lower
  let f_stock_range_upper ← optField r "stock_range_upper" (parseF64) Order.default.stock_range_upper
  let f_randomize_price ← optField r "randomize_price" (parseBool) Order.default.randomize_price
  let f_randomize_size ← optField r "randomize_size" (parseBool) Order.default.randomize_size
  let f_volatility ← optField r "volatility" (parseF64) Order.default.volatility
  let f_volatility_type ← optField r "volatility_type" (parseInt) Order.default.volatility_type
  let f_delta_neutral_order_type ← optField r "delta_neutral_order_type" (parseStr) Order.default.delta_neutral_order_type
  let f_delta_neutral_aux_price ← optField r "delta_neutral_aux_price" (parseF64) Order.default.delta_neutral_aux_price
  let f_delta_neutral_con_id ← optField r "delta_neutral_con_id" (parseInt) Order.default.delta_neutral_con_id
  let f_delta_neutral_settling_firm ← optField r "delta_neutral_settling_firm" (parseStr) Order.default.delta_neutral_settling_firm
  let f_delta_neutral_clearing_account ← optField r "delta_neutral_clearing_account" (parseStr) Order.default.delta_neutral_clearing_account
  let f_delta_neutral_clearing_intent ← optField r "delta_neutral_clearing_intent" (parseStr) Order.default.delta_neutral_clearing_intent
  let f_delta_neutral_open_close ← optField r "delta_neutral_open_close" (parseStr) Order.default.delta_neutral_open_close
  let f_delta_neutral_short_sale ← optField r "delta_neutral_short_sale" (parseBool) Order.default.delta_neutral_short_sale
  let f_delta_neutral_short_sale_slot ← optField r "delta_neutral_short_sale_slot" (parseInt) Order.default.delta_neutral_short_sale_slot
  let f_delta_neutral_designated_location ← optField r "delta_neutral_designated_location" (parseStr) Order.default.delta_neutral_designated_location
  let f_continuous_update ← optField r "continuous_update" (parseBool) Order.default.continuous_update
  let f_reference_price_type ← optField r "reference_price_type" (parseInt) Order.default.reference_price_type
  let f_basis_points ← optField r "basis_points" (parseF64) Order.default.basis_points
  let f_basis_points_type ← optField r "basis_points_type" (parseInt) Order.default.basis_points_type
  let f_scale_init_level_size ← optField r "scale_init_level_size" (parseInt) Order.default.scale_init_level_size
  let f_scale_subs_level_size ← optField r "scale_subs_level_size" (parseInt) Order.default.scale_subs_level_size
  let f_scale_price_increment ← optField r "scale_price_increment" (parseF64) Order.default.scale_price_increment
  let f_scale_price_adjust_value ← optField r "scale_price_adjust_value" (parseF64) Order.default.scale_price_adjust_value
  let f_scale_price_adjust_interval ← optField r "scale_price_adjust_interval" (parseInt) Order.default.scale_price_adjust_interval
  let f_scale_profit_offset ← optField r "scale_profit_offset" (parseF64) Order.default.scale_profit_offset
  let f_scale_auto_reset ← optField r "scale_auto_reset" (parseBool) Order.default.scale_auto_reset
  let f_scale_init_position ← optField r "scale_init_position" (parseInt) Order.default.scale_init_position
  let f_scale_init_fill_qty ← optField r "scale_init_fill_qty" (parseInt) Order.default.scale_init_fill_qty
  let f_scale_random_percent ← optField r "scale_random_percent" (parseBool) Order.default.scale_random_percent
  let f_scale_table ← optField r "scale_table" (parseStr) Order.default.scale_table
  let f_hedge_type ← optField r "hedge_type" (parseStr) Order.default.hedge_type
  let f_hedge_param ← optField r "hedge_param" (parseStr) Order.default.hedge_param
  let f_account ← optField r "account" (parseStr) Order.default.account
  let f_settling_firm ← optField r "settling_firm" (parseStr) Order.default.settling_firm
  let f_clearing_account ← optField r "clearing_account" (parseStr) Order.default.clearing_account
  let f_clearing_intent ← optField r "clearing_intent" (parseStr) Order.default.clearing_intent
  let f_algo_strategy ← optField r "algo_strategy" (parseStr) Order.default.algo_strategy
  let f_algo_params ← optField r "algo_params" (parseList TagValue.fromValue) Order.default.algo_params
  let f_smart_combo_routing_params ← optField r "smart_combo_routing_params" (parseList TagValue.fromValue) Order.default.smart_combo_routing_params
  let f_algo_id ← optField r "algo_id" (parseStr) Order.default.algo_id
  let f_what_if ← optField r "what_if" (parseBool) Order.default.what_if
  let f_not_held ← optField r "not_held" (parseBool) Order.default.not_held
  let f_solicited ← optField r "solicited" (parseBool) Order.default.solicited
  let f_model_code ← optField r "model_code" (parseStr) Order.default.model_code
  let f_order_combo_legs ← optField r "order_combo_legs" (parseList OrderComboLeg.fromValue) Order.default.order_combo_legs
  let f_order_misc_options ← optField r "order_misc_options" (parseList TagValue.fromValue) Order.default.order_misc_options
  let f_reference_contract_id ← optField r "reference_contract_id" (parseInt) Order.default.reference_contract_id
  let f_pegged_change_amount ← optField r "pegged_change_amount" (parseF64) Order.default.pegged_change_amount
  let f_is_pegged_change_amount_decrease ← optField r "is_pegged_change_amount_decrease" (parseBool) Order.default.is_pegged_change_amount_decrease
  let f_reference_change_amount ← optField r "reference_change_amount" (parseF64) Order.default.reference_change_amount
  let f_reference_exchange_id ← optField r "reference_exchange_id" (parseStr) Order.default.reference_exchange_id
  let f_adjusted_order_type ← optField r "adjusted_order_type" (parseStr) Order.default.adjusted_order_type
  let f_trigger_price ← optField r "trigger_price" (parseF64) Order.default.trigger_price
  let f_adjusted_stop_price ← optField r "adjusted_stop_price" (parseF64) Order.default.adjusted_stop_price
  let f_adjusted_stop_limit_price ← optField r "adjusted_stop_limit_price" (parseF64) Order.default.adjusted_stop_limit_price
  let f_adjusted_trailing_amount ← optField r "adjusted_trailing_amount" (parseF64) Order.default.adjusted_trailing_amount
  let f_adjustable_trailing_unit ← optField r "adjustable_trailing_unit" (parseInt) Order.default.adjustable_trailing_unit
  let f_lmt_price_offset ← optField r "lmt_price_offset" (parseF64) Order.default.lmt_price_offset
  let f_conditions ← optField r "conditions" (parseList OrderConditionEnum.fromValue) Order.default.conditions
  let f_conditions_cancel_order ← optField r "conditions_cancel_order" (parseBool) Order.default.conditions_cancel_order
  let f_conditions_ignore_rth ← optField r "conditions_ignore_rth" (parseBool) Order.default.conditions_ignore_rth
  let f_ext_operator ← optField r "ext_operator" (parseStr) Order.default.ext_operator
  let f_cash_qty ← optField r "cash_qty" (parseF64) Order.default.cash_qty
  let f_mifid2decision_maker ← optField r "mifid2decision_maker" (parseStr) Order.default.mifid2decision_maker
  let f_mifid2decision_algo ← optField r "mifid2decision_algo" (parseStr) Order.default.mifid2decision_algo
  let f_mifid2execution_trader ← optField r "mifid2execution_trader" (parseStr) Order.default.mifid2execution_trader
  let f_mifid2execution_algo ← optField r "mifid2execution_algo" (parseStr) Order.default.mifid2execution_algo
  let f_dont_use_auto_price_for_hedge ← optField r "dont_use_auto_price_for_hedge" (parseBool) Order.default.dont_use_auto_price_for_hedge
  let f_is_oms_container ← optField r "is_oms_container" (parseBool) Order.default.is_oms_container
  let f_discretionary_up_to_limit_price ← optField r "discretionary_up_to_limit_price" (parseBool) Order.default.discretionary_up_to_limit_price
  let f_auto_cancel_date ← optField r "auto_cancel_date" (parseStr) Order.default.auto_cancel_date
  let f_filled_quantity ← optField r "filled_quantity" (parseF64) Order.default.filled_quantity
  let f_ref_futures_con_id ← optField r "ref_futures_con_id" (parseInt) Order.default.ref_futures_con_id
  let f_auto_cancel_parent ← optField r "auto_cancel_parent" (parseBool) Order.default.auto_cancel_parent
  let f_shareholder ← optField r "shareholder" (parseStr) Order.default.shareholder
  let f_imbalance_only ← optField r "imbalance_only" (parseBool) Order.default.imbalance_only
  let f_route_marketable_to_bbo ← optField r "route_marketable_to_bbo" (parseBool) Order.default.route_marketable_to_bbo
  let f_parent_perm_id ← optField r "parent_perm_id" (parseInt) Order.default.parent_perm_id
  let f_use_price_mgmt_algo ← optField r "use_price_mgmt_algo" (parseBool) Order.default.use_price_mgmt_algo
  Except.ok {
    soft_dollar_tier := f_soft_dollar_tier
    order_id := f_order_id
    client_id := f_client_id
    perm_id := f_perm_id
    action := f_action
    total_quantity := f_total_quantity
    order_type := f_order_type
    lmt_price := f_lmt_price
    aux_price := f_aux_price
    tif := f_tif
    active_start_time := f_active_start_time
    active_stop_time := f_active_stop_time
    oca_group := f_oca_group
    oca_type := f_oca_type
    order_ref := f_order_ref
    transmit := f_transmit
    parent_id := f_parent_id
    block_order := f_block_order
    sweep_to_fill := f_sweep_to_fill
    display_size := f_display_size
    trigger_method := f_trigger_method
    outside_rth := f_outside_rth
    hidden := f_hidden
    good_after_time := f_good_after_time
    good_till_date := f_good_till_date
    rule80a := f_rule80a
    all_or_none := f_all_or_none
    min_qty := f_min_qty
    percent_offset := f_percent_offset
    override_percentage_constraints := f_override_percentage_constraints
    trail_stop_price := f_trail_stop_price
    trailing_percent := f_trailing_percent
    fa_group := f_fa_group
    fa_profile := f_fa_profile
    fa_method := f_fa_method
    fa_percentage := f_fa_percentage
    designated_location := f_designated_location
    open_close := f_open_close
    origin := f_origin
    short_sale_slot := f_short_sale_slot
    exempt_code := f_exempt_code
    discretionary_amt := f_discretionary_amt
    e_trade_only := f_e_trade_only
    firm_quote_only := f_firm_quote_only
    nbbo_price_cap := f_nbbo_price_cap
    opt_out_smart_routing := f_opt_out_smart_routing
    auction_strategy := f_auction_strategy
    starting_price := f_starting_price
    stock_ref_price := f_stock_ref_price
    delta := f_delta
    stock_range_lower := f_stock_range_lower
    stock_range_upper := f_stock_range_upper
    randomize_price := f_randomize_price
    randomize_size := f_randomize_size
    volatility := f_volatility
    volatility_type := f_volatility_type
    delta_neutral_order_type := f_delta_neutral_order_type
    delta_neutral_aux_price := f_delta_neutral_aux_price
    delta_neutral_con_id := f_delta_neutral_con_id
    delta_neutral_settling_firm := f_delta_neutral_settling_firm
    delta_neutral_clearing_account := f_delta_neutral_clearing_account
    delta_neutral_clearing_intent := f_delta_neutral_clearing_intent
    delta_neutral_open_close := f_delta_neutral_open_close
    delta_neutral_short_sale := f_delta_neutral_short_sale
    delta_neutral_short_sale_slot := f_delta_neutral_short_sale_slot
    delta_neutral_designated_location := f_delta_neutral_designated_location
    continuous_update := f_continuous_update
    reference_price_type := f_reference_price_type
    basis_points := f_basis_points
    basis_points_type := f_basis_points_type
    scale_init_level_size := f_scale_init_level_size
    scale_subs_level_size := f_scale_subs_level_size
    scale_price_increment := f_scale_price_increment
    scale_price_adjust_value := f_scale_price_adjust_value
    scale_price_adjust_interval := f_scale_price_adjust_interval
    scale_profit_offset := f_scale_profit_offset
    scale_auto_reset := f_scale_auto_reset
    scale_init_position := f_scale_init_position
    scale_init_fill_qty := f_scale_init_fill_qty
    scale_random_percent := f_scale_random_percent
    scale_table := f_scale_table
    hedge_type := f_hedge_type
    hedge_param := f_hedge_param
    account := f_account
    settling_firm := f_settling_firm
    clearing_account := f_clearing_account
    clearing_intent := f_clearing_intent
    algo_strategy := f_algo_strategy
    algo_params := f_algo_params
    smart_combo_routing_params := f_smart_combo_routing_params
    algo_id := f_algo_id
    what_if := f_what_if
    not_held := f_not_held
    solicited := f_solicited
    model_code := f_model_code
    order_combo_legs := f_order_combo_legs
    order_misc_options := f_order_misc_options
    reference_contract_id := f_reference_contract_id
    pegged_change_amount := f_pegged_change_amount
    is_pegged_change_amount_decrease := f_is_pegged_change_amount_decrease
    reference_change_amount := f_reference_change_amount
    reference_exchange_id := f_reference_exchange_id
    adjusted_order_type := f_adjusted_order_type
    trigger_price := f_trigger_price
    adjusted_stop_price := f_adjusted_stop_price
    adjusted_stop_limit_price := f_adjusted_stop_limit_price
    adjusted_trailing_amount := f_adjusted_trailing_amount
    adjustable_trailing_unit := f_adjustable_trailing_unit
    lmt_price_offset := f_lmt_price_offset
    conditions := f_conditions
    conditions_cancel_order := f_conditions_cancel_order
    conditions_ignore_rth := f_conditions_ignore_rth
    ext_operator := f_ext_operator
    cash_qty := f_cash_qty
    mifid2decision_maker := f_mifid2decision_maker
    mifid2decision_algo := f_mifid2decision_algo
    mifid2execution_trader := f_mifid2execution_trader
    mifid2execution_algo := f_mifid2execution_algo
    dont_use_auto_price_for_hedge := f_dont_use_auto_price_for_hedge
    is_oms_container := f_is_oms_container
    discretionary_up_to_limit_price := f_discretionary_up_to_limit_price
    auto_cancel_date := f_auto_cancel_date
    filled_quantity := f_filled_quantity
    ref_futures_con_id := f_ref_futures_con_id
    auto_cancel_parent := f_auto_cancel_parent
    shareholder := f_shareholder
    imbalance_only := f_imbalance_only
    route_marketable_to_bbo := f_route_marketable_to_bbo
    parent_perm_id := f_parent_perm_id
    use_price_mgmt_algo := f_use_price_mgmt_algo
  }

/-! ### Claims -/

/-- Claim C1: the spec states that `one_cancels_all_order(G, list, T)`
mutates the caller's orders in place so that afterwards every order in the
input list has `oca_group = G` and `oca_type = T`.  The code cannot deliver
this: it takes the vector by value (moving it out of the caller), mutates
the moved local copies, drops them, and returns `()` — its entire
observable result, proved here, is the unit value, so no updated order ever
reaches the caller. -/
theorem one_cancels_all_order_discards_updates (oca_group : String)
    (oca_orders : List Order) (oca_type : Int) :
    Order.one_cancels_all_order oca_group oca_orders oca_type = () := rfl

/-- Claim C2, counterexample: at `parent_order_id = 2147483647` (a valid
`i32`), the take-profit child's `order_id` is not `parent_order_id + 1`:
the `i32` addition wraps to `-2147483648` in a release build (and panics in
a debug build). -/
theorem bracket_order_child_id_overflow_cex :
    (Order.bracket_order 2147483647 "DU123" "BUY" 100 10 12 9).2.1.order_id ≠
      2147483647 + 1 := by
  decide

/-- Claim C2 (amended): provided `parent_order_id + 2` does not overflow
`i32` (`-2^31 ≤ parent_order_id ≤ 2^31 - 3`), of the three returned orders
exactly the stop-loss has `transmit = true`; both children carry
`parent_id` equal to the parent's `order_id`; the children's ids are
`parent_order_id + 1` and `parent_order_id + 2`; and the children take the
opposite action when the parent action is "BUY" or "SELL". -/
theorem bracket_order_invariants (parent_order_id : Int) (account action : String)
    (quantity limit_price take_profit_limit_price stop_loss_price : f64)
    (h1 : -(2 ^ 31) ≤ parent_order_id) (h2 : parent_order_id ≤ 2 ^ 31 - 3) :
    let b := Order.bracket_order parent_order_id account action quantity limit_price
      take_profit_limit_price stop_loss_price
    b.1.transmit = false ∧ b.2.1.transmit = false ∧ b.2.2.transmit = true ∧
    b.2.1.parent_id = b.1.order_id ∧ b.2.2.parent_id = b.1.order_id ∧
    b.1.order_id = parent_order_id ∧
    b.2.1.order_id = parent_order_id + 1 ∧
    b.2.2.order_id = parent_order_id + 2 ∧
    (action = "BUY" → b.2.1.action = "SELL" ∧ b.2.2.action = "SELL") ∧
    (action = "SELL" → b.2.1.action = "BUY" ∧ b.2.2.action = "BUY") := by
  refine ⟨rfl, rfl, rfl, rfl, rfl, rfl, ?_, ?_, ?_, ?_⟩
  · exact i32wrap_eq_self (parent_order_id + 1) (by omega) (by omega)
  · exact i32wrap_eq_self (parent_order_id + 2) (by omega) (by omega)
  · intro h; subst h; exact ⟨rfl, rfl⟩
  · intro h; subst h; exact ⟨rfl, rfl⟩

/-- Witness for `bracket_order_invariants` at `parent_order_id = 5`,
action "BUY". -/
theorem bracket_order_invariants_witness :
    (-(2 ^ 31) ≤ (5 : Int)) ∧ ((5 : Int) ≤ 2 ^ 31 - 3) ∧
    (let b := Order.bracket_order 5 "DU123" "BUY" 100 10 12 9
     b.1.transmit = false ∧ b.2.1.transmit = false ∧ b.2.2.transmit = true ∧
     b.2.1.parent_id = b.1.order_id ∧ b.2.2.parent_id = b.1.order_id ∧
     b.1.order_id = 5 ∧ b.2.1.order_id = 5 + 1 ∧ b.2.2.order_id = 5 + 2 ∧
     ("BUY" = "BUY" → b.2.1.action = "SELL" ∧ b.2.2.action = "SELL") ∧
     ("BUY" = "SELL" → b.2.1.action = "BUY" ∧ b.2.2.action = "BUY")) :=
  ⟨by norm_num, by norm_num,
    bracket_order_invariants 5 "DU123" "BUY" 100 10 12 9 (by norm_num) (by norm_num)⟩

/-- Claim C10: `bracket_order` sets the supplied account only on the
parent; the two children are built without touching `account`, so they
keep the default empty string. -/
theorem bracket_order_children_account_empty (parent_order_id : Int)
    (account action : String)
    (quantity limit_price take_profit_limit_price stop_loss_price : f64) :
    (Order.bracket_order parent_order_id account action quantity limit_price
      take_profit_limit_price stop_loss_price).1.account = account ∧
    (Order.bracket_order parent_order_id account action quantity limit_price
      take_profit_limit_price stop_loss_price).2.1.account = "" ∧
    (Order.bracket_order parent_order_id account action quantity limit_price
      take_profit_limit_price stop_loss_price).2.2.account = "" :=
  ⟨rfl, rfl, rfl⟩

/-- Claim C4, counterexample: the claim says every field other than
`order_type`, `action`, `total_quantity`, `lmt_price`, `aux_price` equals
its `Order::default()` value, but the preset also stores the supplied
account: `account = "U123" ≠ ""`. -/
theorem stop_limit_order_account_cex :
    (Order.stop_limit_order "U123" "BUY" 100 50.5 50).account ≠
      Order.default.account := by
  decide

/-- Claim C4 (amended): `stop_limit_order("U123","BUY",100.0,50.5,50.0)`
yields exactly `Order::default()` with `account = "U123"`,
`action = "BUY"`, `order_type = "STP LMT"`, `total_quantity = 100.0`,
`lmt_price = 50.5`, `aux_price = 50.0`, and every other field at its
default. -/
theorem stop_limit_order_scenario :
    Order.stop_limit_order "U123" "BUY" 100 50.5 50 =
      { Order.default with
        account := "U123"
        action := "BUY"
        order_type := "STP LMT"
        total_quantity := 100
        lmt_price := 50.5
        aux_price := 50 } := rfl

/-- Claim C6: `limit_for_combo_with_leg_prices_order` produces one
`OrderComboLeg` per supplied price, in the same order, and
`smart_combo_routing_params` is exactly `[("NonGuaranteed", "1")]` when
`non_guaranteed` is true and empty when it is false. -/
theorem limit_for_combo_with_leg_prices_order_spec (account action : String)
    (quantity : f64) (leg_prices : List f64) (non_guaranteed : Bool) :
    let o := Order.limit_for_combo_with_leg_prices_order account action quantity
      leg_prices non_guaranteed
    o.order_combo_legs = leg_prices.map (fun price => OrderComboLeg.new price) ∧
    o.order_combo_legs.length = leg_prices.length ∧
    o.smart_combo_routing_params =
      (if non_guaranteed then [TagValue.new "NonGuaranteed" "1"] else []) := by
  cases non_guaranteed <;>
    simp [Order.limit_for_combo_with_leg_prices_order] <;>
    exact rfl

/-- Claim C3, counterexample: the claim says every optional floating-point
field of `Order::default()` holds `UNSET_DOUBLE`, but `discretionary_amt`
— an optional SMART-routing float field — defaults to `0.0`, which is not
the sentinel. -/
theorem order_default_discretionary_amt_cex :
    Order.default.discretionary_amt = 0 ∧ (0 : f64) ≠ UNSET_DOUBLE := by
  constructor
  · rfl
  · intro h
    have hd : (UNSET_DOUBLE : ℚ).num = ((2 ^ 53 - 1) * 2 ^ 971 : ℤ) := rfl
    have h0 : ((0 : f64) : ℚ).num = 0 := rfl
    rw [← h] at hd
    rw [h0] at hd
    norm_num at hd

/-- Claim C3 (amended): `Order::default()` field by field.  The optional
floating-point fields holding `UNSET_DOUBLE` and optional integer fields
holding `UNSET_INTEGER` are exactly the ones listed; the optional numeric
fields `discretionary_amt`, `pegged_change_amount`,
`reference_change_amount` (and the core term `total_quantity`) default to
`0.0` instead, and the id/OCA/display/trigger/short-sale integer fields
default to `0`.  All optional flags are false; all strings are empty;
`origin = Customer` overrides `Origin`'s own default `Unknown`;
`open_close = "O"`, `exempt_code = -1`, and `transmit`, `e_trade_only`,
`firm_quote_only` are true. -/
theorem order_default_field_values :
    Origin.default = Origin.Unknown ∧
    Order.default.origin = Origin.Customer ∧
    Order.default.open_close = "O" ∧
    Order.default.exempt_code = -1 ∧
    Order.default.transmit = true ∧
    Order.default.e_trade_only = true ∧
    Order.default.firm_quote_only = true ∧
    Order.default.soft_dollar_tier = SoftDollarTier.new "" "" "" ∧
    Order.default.auction_strategy = AuctionStrategy.AuctionUnset ∧
    Order.default.lmt_price = UNSET_DOUBLE ∧
    Order.default.aux_price = UNSET_DOUBLE ∧
    Order.default.percent_offset = UNSET_DOUBLE ∧
    Order.default.trail_stop_price = UNSET_DOUBLE ∧
    Order.default.trailing_percent = UNSET_DOUBLE ∧
    Order.default.nbbo_price_cap = UNSET_DOUBLE ∧
    Order.default.starting_price = UNSET_DOUBLE ∧
    Order.default.stock_ref_price = UNSET_DOUBLE ∧
    Order.default.delta = UNSET_DOUBLE ∧
    Order.default.stock_range_lower = UNSET_DOUBLE ∧
    Order.default.stock_range_upper = UNSET_DOUBLE ∧
    Order.default.volatility = UNSET_DOUBLE ∧
    Order.default.delta_neutral_aux_price = UNSET_DOUBLE ∧
    Order.default.basis_points = UNSET_DOUBLE ∧
    Order.default.scale_price_increment = UNSET_DOUBLE ∧
    Order.default.scale_price_adjust_value = UNSET_DOUBLE ∧
    Order.default.scale_profit_offset = UNSET_DOUBLE ∧
    Order.default.trigger_price = UNSET_DOUBLE ∧
    Order.default.adjusted_stop_price = UNSET_DOUBLE ∧
    Order.default.adjusted_stop_limit_price = UNSET_DOUBLE ∧
    Order.default.adjusted_trailing_amount = UNSET_DOUBLE ∧
    Order.default.lmt_price_offset = UNSET_DOUBLE ∧
    Order.default.cash_qty = UNSET_DOUBLE ∧
    Order.default.filled_quantity = UNSET_DOUBLE ∧
    Order.default.total_quantity = 0 ∧
    Order.default.discretionary_amt = 0 ∧
    Order.default.pegged_change_amount = 0 ∧
    Order.default.reference_change_amount = 0 ∧
    Order.default.min_qty = UNSET_INTEGER ∧
    Order.default.volatility_type = UNSET_INTEGER ∧
    Order.default.reference_price_type = UNSET_INTEGER ∧
    Order.default.basis_points_type = UNSET_INTEGER ∧
    Order.default.scale_init_level_size = UNSET_INTEGER ∧
    Order.default.scale_subs_level_size = UNSET_INTEGER ∧
    Order.default.scale_price_adjust_interval = UNSET_INTEGER ∧
    Order.default.scale_init_position = UNSET_INTEGER ∧
    Order.default.scale_init_fill_qty = UNSET_INTEGER ∧
    Order.default.order_id = 0 ∧
    Order.default.client_id = 0 ∧
    Order.default.perm_id = 0 ∧
    Order.default.oca_type = 0 ∧
    Order.default.parent_id = 0 ∧
    Order.default.display_size = 0 ∧
    Order.default.trigger_method = 0 ∧
    Order.default.short_sale_slot = 0 ∧
    Order.default.delta_neutral_con_id = 0 ∧
    Order.default.delta_neutral_short_sale_slot = 0 ∧
    Order.default.adjustable_trailing_unit = 0 ∧
    Order.default.reference_contract_id = 0 ∧
    Order.default.ref_futures_con_id = 0 ∧
    Order.default.parent_perm_id = 0 ∧
    Order.default.block_order = false ∧
    Order.default.sweep_to_fill = false ∧
    Order.default.outside_rth = false ∧
    Order.default.hidden = false ∧
    Order.default.all_or_none = false ∧
    Order.default.override_percentage_constraints = false ∧
    Order.default.opt_out_smart_routing = false ∧
    Order.default.randomize_price = false ∧
    Order.default.randomize_size = false ∧
    Order.default.delta_neutral_short_sale = false ∧
    Order.default.continuous_update = false ∧
    Order.default.scale_auto_reset = false ∧
    Order.default.scale_random_percent = false ∧
    Order.default.what_if = false ∧
    Order.default.not_held = false ∧
    Order.default.solicited = false ∧
    Order.default.is_pegged_change_amount_decrease = false ∧
    Order.default.conditions_cancel_order = false ∧
    Order.default.conditions_ignore_rth = false ∧
    Order.default.dont_use_auto_price_for_hedge = false ∧
    Order.default.is_oms_container = false ∧
    Order.default.discretionary_up_to_limit_price = false ∧
    Order.default.auto_cancel_parent = false ∧
    Order.default.imbalance_only = false ∧
    Order.default.route_marketable_to_bbo = false ∧
    Order.default.use_price_mgmt_algo = false ∧
    Order.default.action = "" ∧
    Order.default.order_type = "" ∧
    Order.default.tif = "" ∧
    Order.default.active_start_time = "" ∧
    Order.default.active_stop_time = "" ∧
    Order.default.oca_group = "" ∧
    Order.default.order_ref = "" ∧
    Order.default.good_after_time = "" ∧
    Order.default.good_till_date = "" ∧
    Order.default.rule80a = "" ∧
    Order.default.fa_group = "" ∧
    Order.default.fa_profile = "" ∧
    Order.default.fa_method = "" ∧
    Order.default.fa_percentage = "" ∧
    Order.default.designated_location = "" ∧
    Order.default.delta_neutral_order_type = "" ∧
    Order.default.delta_neutral_settling_firm = "" ∧
    Order.default.delta_neutral_clearing_account = "" ∧
    Order.default.delta_neutral_clearing_intent = "" ∧
    Order.default.delta_neutral_open_close = "" ∧
    Order.default.delta_neutral_designated_location = "" ∧
    Order.default.scale_table = "" ∧
    Order.default.hedge_type = "" ∧
    Order.default.hedge_param = "" ∧
    Order.default.account = "" ∧
    Order.default.settling_firm = "" ∧
    Order.default.clearing_account = "" ∧
    Order.default.clearing_intent = "" ∧
    Order.default.algo_strategy = "" ∧
    Order.default.algo_id = "" ∧
    Order.default.model_code = "" ∧
    Order.default.reference_exchange_id = "" ∧
    Order.default.adjusted_order_type = "" ∧
    Order.default.ext_operator = "" ∧
    Order.default.mifid2decision_maker = "" ∧
    Order.default.mifid2decision_algo = "" ∧
    Order.default.mifid2execution_trader = "" ∧
    Order.default.mifid2execution_algo = "" ∧
    Order.default.auto_cancel_date = "" ∧
    Order.default.shareholder = "" ∧
    Order.default.algo_params = [] ∧
    Order.default.smart_combo_routing_params = [] ∧
    Order.default.order_misc_options = [] ∧
    Order.default.order_combo_legs = [] ∧
    Order.default.conditions = [] := by
  repeat' apply And.intro
  all_goals rfl

/-- Claim C5, counterexample: `price_condition_order` does not return a
value for every `i32` trigger method — at `trigger_method = 5` (not a
`TriggerMethod` discriminant) the source's
`FromPrimitive::from_i32(trigger_method).unwrap()` panics, modelled here as
`none`. -/
theorem price_condition_order_invalid_trigger_cex :
    Order.price_condition_order 5 8314 "SMART" 600 true false = none := rfl

theorem condFieldStrings_total (cs : List OrderConditionEnum) :
    ∃ parts, condFieldStrings cs = some parts := by
  induction cs with
  | nil => exact ⟨[], rfl⟩
  | cons c cs ih =>
      obtain ⟨parts, hp⟩ := ih
      have hm : ∃ fs, make_fields c = Except.ok fs := by
        cases c <;> exact ⟨_, rfl⟩
      obtain ⟨fs, hfs⟩ := hm
      exact ⟨(String.intercalate "," fs ++ "|") :: parts, by
        simp [condFieldStrings, hfs, Except.toOption, hp]⟩

theorem display_isSome (o : Order) : (Order.display o).isSome = true := by
  obtain ⟨parts, hp⟩ := condFieldStrings_total o.conditions
  by_cases h : o.conditions.isEmpty <;>
    simp [Order.display, h, hp]

/-- Claim C5 (amended): `price_condition_order` returns a value for every
trigger method among the `TriggerMethod` discriminants 0, 1, 2, 3, 4, 7, 8
(outside this set the source's `unwrap` aborts, see the counterexample),
and rendering any `Order` — in particular one with a non-empty conditions
list — returns a string: the `unwrap` inside the `COND` block never sees an
`Err` because every variant's `make_fields` succeeds. -/
theorem construction_and_display_totality :
    (∀ (trigger_method con_id : Int) (exchange : String) (price : f64)
        (is_more is_conjunction : Bool),
      (trigger_method = 0 ∨ trigger_method = 1 ∨ trigger_method = 2 ∨
        trigger_method = 3 ∨ trigger_method = 4 ∨ trigger_method = 7 ∨
        trigger_method = 8) →
      (Order.price_condition_order trigger_method con_id exchange price
        is_more is_conjunction).isSome = true) ∧
    (∀ o : Order, (Order.display o).isSome = true) := by
  constructor
  · intro trigger_method con_id exchange price is_more is_conjunction h
    rcases h with h | h | h | h | h | h | h <;> subst h <;> rfl
  · exact display_isSome

/-- Witness for `construction_and_display_totality`: trigger method 0 and
an order carrying one time condition. -/
theorem construction_and_display_totality_witness :
    (((0 : Int) = 0 ∨ (0 : Int) = 1 ∨ (0 : Int) = 2 ∨ (0 : Int) = 3 ∨
       (0 : Int) = 4 ∨ (0 : Int) = 7 ∨ (0 : Int) = 8) ∧
      (Order.price_condition_order 0 8314 "SMART" 600 true false).isSome = true) ∧
    (Order.display { Order.default with
        conditions := [OrderConditionEnum.Time
          ⟨⟨⟨ConditionType.Time, false⟩, true⟩, "20260101 10:00:00"⟩] }).isSome = true :=
  ⟨⟨Or.inl rfl,
    construction_and_display_totality.1 0 8314 "SMART" 600 true false (Or.inl rfl)⟩,
   construction_and_display_totality.2 _⟩

theorem zero_ne_unset : (0 : f64) ≠ UNSET_DOUBLE := by
  intro h
  have hd : (UNSET_DOUBLE : ℚ).num = ((2 ^ 53 - 1) * 2 ^ 971 : ℤ) := rfl
  rw [← h] at hd
  have h0 : ((0 : f64) : ℚ).num = 0 := rfl
  rw [h0] at hd
  norm_num at hd

theorem fmtDebugF64_zero : fmtDebugF64 0 = "0.0" := by
  with_unfolding_all rfl

theorem mem_E_data : 'E' ∈ ("E" : String).data := by decide

theorem mem_E0_data : 'E' ∈ ("E0" : String).data := by decide

theorem mem_data_fmtUpperExpF64 (x : f64) : 'E' ∈ (fmtUpperExpF64 x).data := by
  rw [fmtUpperExpF64]
  by_cases h0 : x = 0
  · rw [if_pos h0]; decide
  · rw [if_neg h0]
    by_cases hd : 2 ^ factorCount 2 x.den * 5 ^ factorCount 5 x.den = x.den <;>
      by_cases hs : x.num < 0 <;>
        simp [hd, hs, String.data_append, List.mem_append, mem_E_data, mem_E0_data]

theorem sentinel_branch_ne_zero_branch : fmtUpperExpF64 UNSET_DOUBLE ≠ "0.0" := by
  intro h
  have hm := mem_data_fmtUpperExpF64 UNSET_DOUBLE
  rw [h] at hm
  exact absurd hm (by decide)

/-- Claim C7: with `lmt_price = UNSET_DOUBLE` the rendered form of that
field differs from the rendering of the same field holding an explicit
`0.0`, and likewise for the three commission fields of `OrderState`; the
sentinel branch renders in scientific form (it contains the exponent
marker `E`) while the explicit `0.0` renders as the decimal `"0.0"`. -/
theorem sentinel_rendering_distinguishable :
    (∀ o : Order, o.lmt_price = UNSET_DOUBLE →
      Order.lmt_price_str o ≠ Order.lmt_price_str { o with lmt_price := 0 } ∧
      'E' ∈ (Order.lmt_price_str o).data ∧
      Order.lmt_price_str { o with lmt_price := 0 } = "0.0") ∧
    (∀ s : OrderState, s.commission = UNSET_DOUBLE →
      OrderState.commission_str s ≠ OrderState.commission_str { s with commission := 0 } ∧
      'E' ∈ (OrderState.commission_str s).data ∧
      OrderState.commission_str { s with commission := 0 } = "0.0") ∧
    (∀ s : OrderState, s.min_commission = UNSET_DOUBLE →
      OrderState.min_commission_str s ≠
        OrderState.min_commission_str { s with min_commission := 0 } ∧
      'E' ∈ (OrderState.min_commission_str s).data ∧
      OrderState.min_commission_str { s with min_commission := 0 } = "0.0") ∧
    (∀ s : OrderState, s.max_commission = UNSET_DOUBLE →
      OrderState.max_commission_str s ≠
        OrderState.max_commission_str { s with max_commission := 0 } ∧
      'E' ∈ (OrderState.max_commission_str s).data ∧
      OrderState.max_commission_str { s with max_commission := 0 } = "0.0") := by
  refine ⟨?_, ?_, ?_, ?_⟩
  · intro o h
    have hz : Order.lmt_price_str { o with lmt_price := 0 } = "0.0" := by
      simp [Order.lmt_price_str, zero_ne_unset, fmtDebugF64_zero]
    have hu : Order.lmt_price_str o = fmtUpperExpF64 UNSET_DOUBLE := by
      simp [Order.lmt_price_str, h]
    refine ⟨?_, ?_, hz⟩
    · rw [hu, hz]; exact sentinel_branch_ne_zero_branch
    · rw [hu]; exact mem_data_fmtUpperExpF64 _
  · intro s h
    have hz : OrderState.commission_str { s with commission := 0 } = "0.0" := by
      simp [OrderState.commission_str, zero_ne_unset, fmtDebugF64_zero]
    have hu : OrderState.commission_str s = fmtUpperExpF64 UNSET_DOUBLE := by
      simp [OrderState.commission_str, h]
    refine ⟨?_, ?_, hz⟩
    · rw [hu, hz]; exact sentinel_branch_ne_zero_branch
    · rw [hu]; exact mem_data_fmtUpperExpF64 _
  · intro s h
    have hz : OrderState.min_commission_str { s with min_commission := 0 } = "0.0" := by
      simp [OrderState.min_commission_str, zero_ne_unset, fmtDebugF64_zero]
    have hu : OrderState.min_commission_str s = fmtUpperExpF64 UNSET_DOUBLE := by
      simp [OrderState.min_commission_str, h]
    refine ⟨?_, ?_, hz⟩
    · rw [hu, hz]; exact sentinel_branch_ne_zero_branch
    · rw [hu]; exact mem_data_fmtUpperExpF64 _
  · intro s h
    have hz : OrderState.max_commission_str { s with max_commission := 0 } = "0.0" := by
      simp [OrderState.max_commission_str, zero_ne_unset, fmtDebugF64_zero]
    have hu : OrderState.max_commission_str s = fmtUpperExpF64 UNSET_DOUBLE := by
      simp [OrderState.max_commission_str, h]
    refine ⟨?_, ?_, hz⟩
    · rw [hu, hz]; exact sentinel_branch_ne_zero_branch
    · rw [hu]; exact mem_data_fmtUpperExpF64 _

/-- An `OrderState` whose three commission fields hold the sentinel. -/
def orderStateUnset : OrderState :=
  ⟨"", "", "", "", "", "", "", "", "", "",
    UNSET_DOUBLE, UNSET_DOUBLE, UNSET_DOUBLE, "", "", "", ""⟩

/-- Witness for `sentinel_rendering_distinguishable` at `Order.default`
(whose `lmt_price` is the sentinel) and `orderStateUnset`. -/
theorem sentinel_rendering_distinguishable_witness :
    (Order.default.lmt_price = UNSET_DOUBLE ∧
      (Order.lmt_price_str Order.default ≠
        Order.lmt_price_str { Order.default with lmt_price := 0 } ∧
      'E' ∈ (Order.lmt_price_str Order.default).data ∧
      Order.lmt_price_str { Order.default with lmt_price := 0 } = "0.0")) ∧
    (orderStateUnset.commission = UNSET_DOUBLE ∧
      (OrderState.commission_str orderStateUnset ≠
        OrderState.commission_str { orderStateUnset with commission := 0 } ∧
      'E' ∈ (OrderState.commission_str orderStateUnset).data ∧
      OrderState.commission_str { orderStateUnset with commission := 0 } = "0.0")) ∧
    (orderStateUnset.min_commission = UNSET_DOUBLE ∧
      (OrderState.min_commission_str orderStateUnset ≠
        OrderState.min_commission_str { orderStateUnset with min_commission := 0 } ∧
      'E' ∈ (OrderState.min_commission_str orderStateUnset).data ∧
      OrderState.min_commission_str { orderStateUnset with min_commission := 0 } = "0.0")) ∧
    (orderStateUnset.max_commission = UNSET_DOUBLE ∧
      (OrderState.max_commission_str orderStateUnset ≠
        OrderState.max_commission_str { orderStateUnset with max_commission := 0 } ∧
      'E' ∈ (OrderState.max_commission_str orderStateUnset).data ∧
      OrderState.max_commission_str { orderStateUnset with max_commission := 0 } = "0.0")) :=
  ⟨⟨rfl, sentinel_rendering_distinguishable.1 Order.default rfl⟩,
   ⟨rfl, sentinel_rendering_distinguishable.2.1 orderStateUnset rfl⟩,
   ⟨rfl, sentinel_rendering_distinguishable.2.2.1 orderStateUnset rfl⟩,
   ⟨rfl, sentinel_rendering_distinguishable.2.2.2 orderStateUnset rfl⟩⟩

/-- Claim C8: every condition builder returns a value whose discriminant
tag matches its own kind, whose conjunction flag equals the
`is_conjunction` argument, and — where the builder takes one — whose
`is_more` equals the `is_more` argument.  For `price_condition_order` the
statement is conditional on the builder returning a value (it aborts on
invalid trigger methods, see C5). -/
theorem condition_builders_tags_and_flags :
    (∀ (trigger_method con_id : Int) (exchange : String) (price : f64)
        (is_more is_conjunction : Bool) (c : PriceCondition),
      Order.price_condition_order trigger_method con_id exchange price
          is_more is_conjunction = some c →
      c.contract_condition.operator_condition.order_condition.cond_type =
          ConditionType.Price ∧
      c.contract_condition.operator_condition.order_condition.is_conjunction_connection =
          is_conjunction ∧
      c.contract_condition.operator_condition.is_more = is_more) ∧
    (∀ (time : String) (is_more is_conjunction : Bool),
      (Order.time_condition_order time is_more is_conjunction).operator_condition.order_condition.cond_type =
          ConditionType.Time ∧
      (Order.time_condition_order time is_more is_conjunction).operator_condition.order_condition.is_conjunction_connection =
          is_conjunction ∧
      (Order.time_condition_order time is_more is_conjunction).operator_condition.is_more =
          is_more) ∧
    (∀ (percent : f64) (is_more is_conjunction : Bool),
      (Order.margin_condition_order percent is_more is_conjunction).operator_condition.order_condition.cond_type =
          ConditionType.Margin ∧
      (Order.margin_condition_order percent is_more is_conjunction).operator_condition.order_condition.is_conjunction_connection =
          is_conjunction ∧
      (Order.margin_condition_order percent is_more is_conjunction).operator_condition.is_more =
          is_more) ∧
    (∀ (symbol sec_type exchange : String) (is_conjunction : Bool),
      (Order.execution_condition_order symbol sec_type exchange is_conjunction).order_condition.cond_type =
          ConditionType.Execution ∧
      (Order.execution_condition_order symbol sec_type exchange is_conjunction).order_condition.is_conjunction_connection =
          is_conjunction) ∧
    (∀ (pct_change : f64) (con_id : Int) (exchange : String)
        (is_more is_conjunction : Bool),
      (Order.percentage_change_condition_order pct_change con_id exchange is_more is_conjunction).contract_condition.operator_condition.order_condition.cond_type =
          ConditionType.PercentChange ∧
      (Order.percentage_change_condition_order pct_change con_id exchange is_more is_conjunction).contract_condition.operator_condition.order_condition.is_conjunction_connection =
          is_conjunction ∧
      (Order.percentage_change_condition_order pct_change con_id exchange is_more is_conjunction).contract_condition.operator_condition.is_more =
          is_more) ∧
    (∀ (con_id : Int) (exchange : String) (is_more : Bool) (volume : Int)
        (is_conjunction : Bool),
      (Order.volume_condition_order con_id exchange is_more volume is_conjunction).contract_condition.operator_condition.order_condition.cond_type =
          ConditionType.Volume ∧
      (Order.volume_condition_order con_id exchange is_more volume is_conjunction).contract_condition.operator_condition.order_condition.is_conjunction_connection =
          is_conjunction ∧
      (Order.volume_condition_order con_id exchange is_more volume is_conjunction).contract_condition.operator_condition.is_more =
          is_more) := by
  refine ⟨?_, fun _ _ _ => ⟨rfl, rfl, rfl⟩, fun _ _ _ => ⟨rfl, rfl, rfl⟩,
    fun _ _ _ _ => ⟨rfl, rfl⟩, fun _ _ _ _ _ => ⟨rfl, rfl, rfl⟩,
    fun _ _ _ _ _ => ⟨rfl, rfl, rfl⟩⟩
  intro trigger_method con_id exchange price is_more is_conjunction c h
  cases htm : TriggerMethod.from_i32 trigger_method with
  | none =>
      simp only [Order.price_condition_order, htm] at h
      exact absurd h (by simp)
  | some t =>
      simp only [Order.price_condition_order, htm, Option.some.injEq] at h
      subst h
      exact ⟨rfl, rfl, rfl⟩

/-- The concrete `PriceCondition` produced by
`price_condition_order(0, 8314, "SMART", 600.0, true, false)`. -/
def pc0 : PriceCondition :=
  ⟨⟨⟨⟨ConditionType.Price, false⟩, true⟩, 8314, "SMART"⟩, 600, TriggerMethod.Default⟩

/-- Witness for `condition_builders_tags_and_flags` at the concrete price
condition `pc0`. -/
theorem condition_builders_tags_and_flags_witness :
    Order.price_condition_order 0 8314 "SMART" 600 true false = some pc0 ∧
    (pc0.contract_condition.operator_condition.order_condition.cond_type =
        ConditionType.Price ∧
      pc0.contract_condition.operator_condition.order_condition.is_conjunction_connection =
        false ∧
      pc0.contract_condition.operator_condition.is_more = true) :=
  ⟨rfl, condition_builders_tags_and_flags.1 0 8314 "SMART" 600 true false pc0 rfl⟩

/-- Claim C9, counterexample: decoding a `SoftDollarTier` record with all
fields absent does not succeed — the derive on `SoftDollarTier` carries no
`#[serde(default)]`, so the missing `name` field is a decode error, not a
defaulted field. -/
theorem soft_dollar_tier_decode_empty_cex :
    (SoftDollarTier.fromRecord []).isOk = false := rfl

/-- Claim C9 (amended): `Order` and `OrderComboLeg` (whose derives carry
`#[serde(default)]`) fill absent fields with their in-memory defaults — an
entirely empty `Order` record decodes to exactly `Order::default()`, and a
record carrying only `order_id` decodes to the default with that id; any
`OrderComboLeg` record without a `price` field decodes to `price = 0.0`.
`SoftDollarTier` decodes only when all three fields are present; a record
missing `name` is rejected. -/
theorem decode_defaults_amended :
    Order.fromRecord [] = Except.ok Order.default ∧
    Order.fromRecord [("order_id", Value.num ((5 : ℤ) : ℚ))] =
      Except.ok { Order.default with order_id := 5 } ∧
    (∀ r : List (String × Value), r.lookup "price" = none →
      OrderComboLeg.fromRecord r = Except.ok ⟨0⟩) ∧
    (∀ name v display_name : String,
      SoftDollarTier.fromRecord
        [("name", Value.str name), ("val", Value.str v),
          ("display_name", Value.str display_name)] =
        Except.ok ⟨name, v, display_name⟩) ∧
    (∀ r : List (String × Value), r.lookup "name" = none →
      (SoftDollarTier.fromRecord r).isOk = false) := by
  refine ⟨rfl, rfl, ?_, fun _ _ _ => rfl, ?_⟩
  · intro r h
    simp only [OrderComboLeg.fromRecord, optField, h]
    rfl
  · intro r h
    simp only [SoftDollarTier.fromRecord, reqField, h]
    rfl

/-- Witness for `decode_defaults_amended` at the empty record. -/
theorem decode_defaults_amended_witness :
    (([] : List (String × Value)).lookup "price" = none ∧
      OrderComboLeg.fromRecord [] = Except.ok ⟨0⟩) ∧
    (([] : List (String × Value)).lookup "name" = none ∧
      (SoftDollarTier.fromRecord ([] : List (String × Value))).isOk = false) :=
  ⟨⟨rfl, decode_defaults_amended.2.2.1 [] rfl⟩,
   ⟨rfl, decode_defaults_amended.2.2.2.2 [] rfl⟩⟩

end IBKR
